import Mathlib

/-!
Shallow embedding of `src/restae/handlers.py` (gae-rest-framework).

The embedding follows the source line by line:

* `DomainError` is the error taxonomy raised by the handlers (the exception
  classes imported at handlers.py lines 13 and 18; the classes themselves live
  outside `src/`, so the type is modelled from the spec's "tagged variant"
  description in section 3: disjoint kinds, each carrying an optional
  human-readable message, `""` standing for Python `str(exc)` of a bare raise).
* `Response` models both `webob.Response` and `restae.response.JsonResponse`
  as a status code plus a body string (the response module is outside `src/`;
  per the spec's wire format, the body carries the data/message string).
* `apply_dispatch`, `do_dispatch`, `get_body`, `get_object`,
  `paginate_queryset`, `get_paginated_response`, `list` and `create` embed the
  functions of the same names in handlers.py.  Calls into external
  collaborators (regex matching, key decode, datastore fetch, serializer,
  paginator, middleware hooks) are fields of `Handler`, `Middleware` and
  `Paginator`, modelled from the spec's interface contracts.
* Event traces (`Event`, `CreateEvent`) record which hooks / collaborator
  calls were performed, mirroring the statement order of the source.
-/

namespace Restae

/-- Error taxonomy. Modelled from the spec: the exception classes imported at
handlers.py lines 13 and 18 are defined outside `src/`; spec section 3 calls
them a tagged variant over these kinds, each with an optional message.
`other` stands for any unclassified Python exception (class name, message),
caught by the final `except Exception` clause of `apply_dispatch`. -/
inductive DomainError where
  | notFound (msg : String)
  | notAuthorized (msg : String)
  | forbidden (msg : String)
  | missingParameter (msg : String)
  | badRequest (msg : String)
  | missingBody (msg : String)
  | valueError (msg : String)
  | dispatchError (msg : String)
  | other (cls msg : String)
deriving DecidableEq

/-- HTTP response: status code and body string.  Models both `webob.Response`
and `restae.response.JsonResponse` (the latter is outside `src/`; per the
spec's wire format the body is the data/message string). -/
structure Response where
  status : Nat
  body : String
deriving DecidableEq

/-- Incoming HTTP request, with the transport-supplied route arguments
(`get_route_args`, handlers.py line 147, reads the groupdict of the route the
transport matched; we carry that mapping directly on the request). -/
structure Request where
  method : String
  path_info : String
  route_args : List (String × String)
  query : List (String × String)
  body : String
deriving DecidableEq

/-- Python `str(exc) or default`: the default is used exactly when the
message is the empty string (handlers.py lines 84 to 96). -/
def strOr (s d : String) : String := if s = "" then d else s

/-- The except-clause chain of `BaseHandler.apply_dispatch`
(handlers.py lines 83 to 104).  `handle_exception` is the framework fallback
(`webapp2.RequestHandler.handle_exception`) reached by the final
`except Exception` clause after logging. -/
def handleError (handle_exception : DomainError → Response) : DomainError → Response
  | .notFound m => ⟨404, strOr m "Not found"⟩
  | .notAuthorized m => ⟨403, strOr m "Not authorized"⟩
  | .forbidden m => ⟨401, strOr m "Forbidden"⟩
  | .missingParameter m => ⟨400, strOr m "Missing parameter"⟩
  | .badRequest m => ⟨400, strOr m "Bad request"⟩
  | .missingBody m => ⟨400, strOr m "Request is missing a body"⟩
  | .valueError m => ⟨400, strOr m "Value error"⟩
  | .dispatchError _ => ⟨404, ""⟩
  | .other cls m => handle_exception (.other cls m)

/-- Observable events of one dispatch: a middleware before-hook ran, the
dispatch body (`do_dispatch`, hence the action) ran, an after-hook ran. -/
inductive Event where
  | beforeHook (i : Nat)
  | dispatched
  | afterHook (i : Nat)
deriving DecidableEq

/-- Middleware. Modelled from the spec (section 3): `process_request` may
mutate the request and may raise to short-circuit; `process_response` may
mutate the passed response object (`process_response_mutate` is the in-place
effect on it) and returns a value (`process_response_value`). handlers.py
line 80 calls it as a bare statement, so the returned value is discarded by
the dispatcher. `id` identifies the middleware in event traces. -/
structure Middleware where
  id : Nat
  process_request : Request → Except DomainError Request
  process_response_mutate : Response → Response
  process_response_value : Response → Response

/-- The before-hook loop of `apply_dispatch` (handlers.py lines 73 to 74):
each middleware's `process_request` runs in list order; the first raise
aborts the loop.  Returns the event trace and the request (or error). -/
def run_before (mids : List Middleware) (req : Request) :
    List Event × Except DomainError Request :=
  match mids with
  | [] => ([], .ok req)
  | m :: rest =>
    match m.process_request req with
    | .error e => ([Event.beforeHook m.id], .error e)
    | .ok req2 =>
      let r := run_before rest req2
      (Event.beforeHook m.id :: r.1, r.2)

/-- The after-hook loop of `apply_dispatch` (handlers.py lines 79 to 80):
each middleware's `process_response` runs in list order on the current
response object; its in-place mutation persists, its returned value is
discarded (the call is a bare statement at line 80). -/
def run_after (mids : List Middleware) (resp : Response) :
    List Event × Response :=
  match mids with
  | [] => ([], resp)
  | m :: rest =>
    let mutated := m.process_response_mutate resp
    let r := run_after rest mutated
    (Event.afterHook m.id :: r.1, r.2)

/-- `BaseHandler.apply_dispatch` (handlers.py lines 52 to 104): run the
before hooks, run `do_dispatch` (`dd`), run the after hooks, return the
response; any error raised before the return is translated once by the
except-clause chain (`handleError`).  Also returns the event trace. -/
def apply_dispatch (mids : List Middleware) (dd : Request → Except DomainError Response)
    (handle_exception : DomainError → Response) (req : Request) :
    Response × List Event :=
  match run_before mids req with
  | (tr, .error e) => (handleError handle_exception e, tr)
  | (tr, .ok req2) =>
    match dd req2 with
    | .error e => (handleError handle_exception e, tr ++ [Event.dispatched])
    | .ok resp =>
      let ra := run_after mids resp
      (ra.2, tr ++ [Event.dispatched] ++ ra.1)

/-- Datastore keys are opaque to the core; modelled as naturals. -/
abbrev Key := Nat

/-- Persisted domain objects are opaque to the core; modelled as naturals. -/
abbrev Obj := Nat

/-- Pagination delegate. Modelled from the spec (section 4.6):
`paginate_queryset` returns a single page or null, `get_paginated_response`
wraps serialized page data in a response envelope. -/
structure Paginator where
  paginate_queryset : List Obj → Request → Option (List Obj)
  get_paginated_response : String → Response

/-- A registered route: HTTP method (lowercased) to action-name mapping and
the `detail` flag (`matched_url.route` in handlers.py lines 375 to 384). -/
structure RouteInfo where
  mapping : List (String × String)
  detail : Bool

/-- A registered url: the compiled pattern (`re.match(url.regex, path)` is
modelled as the boolean `regex_match`) plus its route descriptor. -/
structure URLPattern where
  regex_match : String → Bool
  route : RouteInfo

/-- An action bound on the handler (`list`, `create`, ...): receives the
request, the decoded key for detail routes, and the route arguments; may
raise. -/
abbrev Action := Request → Option Key → List (String × String) → Except DomainError Response

/-- The handler, with its class attributes (handlers.py lines 25 to 27 and
163 to 166) and its external collaborators as fields:
`get_key_from_urlsafe` / `get_object_from_urlsafe` model the helpers module
(outside `src/`; spec section 6: decode raises on malformed input — `none`
stands for a raise), `serialize_many` / `serialize_one` / `deserialize`
model `serializer_class`, `model_new` models `_model(**data)`, and `actions`
models `getattr(self, name, None)` lookup of bound action methods. -/
structure Handler where
  urls : List URLPattern := []
  actions : List (String × Action) := []
  lookup_field : Option String := some "urlsafe"
  query_param : Option String := none
  queryset : List Obj := []
  serialize_many : List Obj → String := fun _ => ""
  serialize_one : Obj → String := fun _ => ""
  deserialize : String → String := fun s => s
  model_new : String → Obj := fun _ => 0
  pagination_class : Option Paginator := none
  get_key_from_urlsafe : String → Option Key := fun _ => none
  get_object_from_urlsafe : String → Option Obj := fun _ => none

/-- Python `str.lower()` on the request method (handlers.py lines 381 and
384): ASCII lowercasing, applied character by character. -/
def lower (s : String) : String := String.mk (s.data.map Char.toLower)

/-- The detail-route key step of `APIModelHandler.do_dispatch` (handlers.py
lines 375 to 379): for a detail route, `route_args['urlsafe']` (KeyError if
absent) is decoded by `get_key_from_urlsafe` (raises on failure); any error
in this step is `.error ()`.  Non-detail routes resolve no key. -/
def resolve_key (h : Handler) (u : URLPattern) (route_args : List (String × String)) :
    Except Unit (Option Key) :=
  if u.route.detail then
    match route_args.lookup "urlsafe" with
    | none => .error ()
    | some s =>
      match h.get_key_from_urlsafe s with
      | none => .error ()
      | some k => .ok (some k)
  else .ok none

/-- `APIModelHandler.do_dispatch` (handlers.py lines 355 to 390): scan
`self.urls` in order, first `re.match` wins; no match raises
`NotFound('URL not found on this server')`; for detail routes a key-decode
failure returns a local 400 response directly; a request method absent from
the matched route's mapping raises `DispatchError`; looking up an action
name the handler does not define yields `None` (line 384, `getattr` with a
`None` default) and calling `None` raises the runtime TypeError (the message
string abstracts the interpreter's wording); otherwise the bound action
runs. -/
def do_dispatch (h : Handler) (req : Request) : Except DomainError Response :=
  let route_args := req.route_args
  match h.urls.find? (fun u => u.regex_match req.path_info) with
  | none => .error (.notFound "URL not found on this server")
  | some matched =>
    match resolve_key h matched route_args with
    | .error _ => .ok ⟨400, "Given urlsafe is invalid"⟩
    | .ok kopt =>
      match matched.route.mapping.lookup (lower req.method) with
      | none => .error (.dispatchError ("Invalid method " ++ req.method))
      | some action_name =>
        match h.actions.lookup action_name with
        | none => .error (.other "TypeError" "NoneType object is not callable")
        | some act => act req kopt route_args

/-- `BaseHandler.get_body` (handlers.py lines 114 to 127): a truthy
(non-empty) body is parsed as JSON (`json_loads` models `json.loads`,
`none` standing for a parse exception, which is only logged); an empty body
or a parse failure both fall through to
`raise MissingBody('Request is missing a body')`. -/
def get_body (json_loads : String → Option String) (req : Request) :
    Except DomainError String :=
  if req.body = "" then .error (.missingBody "Request is missing a body")
  else
    match json_loads req.body with
    | some j => .ok j
    | none => .error (.missingBody "Request is missing a body")

/-- Collaborator calls performed by `create`, in statement order. -/
inductive CreateEvent where
  | serializer_called
  | object_constructed
  | persisted
deriving DecidableEq

/-- `APIModelCreateHandler.create` (handlers.py lines 286 to 294):
`get_model_class_from_query` resolves the model class, then
`self.serializer_class(data=self.get_body()).data` — Python evaluates
`self.get_body()` first, so a raise there happens before the serializer is
constructed — then `_model(**data)` constructs the object, `obj.put()`
persists it, and the serialized object is returned.  The second component
lists the serializer / storage calls that were actually performed. -/
def create (h : Handler) (json_loads : String → Option String) (req : Request) :
    Except DomainError Response × List CreateEvent :=
  match get_body json_loads req with
  | .error e => (.error e, [])
  | .ok body_json =>
    let validated := h.deserialize body_json
    let obj := h.model_new validated
    (.ok ⟨200, h.serialize_one obj⟩,
     [CreateEvent.serializer_called, CreateEvent.object_constructed, CreateEvent.persisted])

/-- `APIModelBaseHandler.paginator` (handlers.py lines 211 to 221): the
lazily-instantiated pagination delegate, `none` iff `pagination_class` is
`None`. -/
def paginator (h : Handler) : Option Paginator := h.pagination_class

/-- `APIModelBaseHandler.paginate_queryset` (handlers.py lines 223 to 229):
`None` if pagination is disabled, else whatever the delegate produces. -/
def paginate_queryset (h : Handler) (qs : List Obj) (req : Request) : Option (List Obj) :=
  match paginator h with
  | none => none
  | some p => p.paginate_queryset qs req

/-- `APIModelBaseHandler.get_paginated_response` (handlers.py lines 231 to
236): asserts a paginator is configured (an `AssertionError` reaches the
generic fallback), then delegates. -/
def get_paginated_response (h : Handler) (data : String) : Except DomainError Response :=
  match paginator h with
  | none => .error (.other "AssertionError" "")
  | some p => .ok (p.get_paginated_response data)

/-- `APIModelListHandler.list` (handlers.py lines 266 to 279): paginate the
configured queryset; with a page, return the delegate-wrapped serialized
page; with no page, return the serialized full queryset (webob `Response`
defaults to status 200). -/
def list (h : Handler) (req : Request) : Except DomainError Response :=
  match paginate_queryset h h.queryset req with
  | some page => get_paginated_response h (h.serialize_many page)
  | none => .ok ⟨200, h.serialize_many h.queryset⟩

/-- Python `str` of an optional string (`str(None)` is `"None"`), used for
the `MissingParameter` format argument at handlers.py line 192. -/
def optStr : Option String → String
  | some s => s
  | none => "None"

/-- Control flow of the `try` block of `get_object`: it either fell off the
end, executed an early `return`, or has an exception in flight. -/
inductive TryFlow where
  | ended
  | early (v : Option Obj)
  | raised (e : DomainError)
deriving DecidableEq

/-- The `try` block body of `APIModelBaseHandler.get_object` (handlers.py
lines 179 to 200), with `lf` and `qp` the already-defaulted lookup field and
query parameter.  When no explicit `urlsafe` is given, the value is taken
from `route_args[lf]` when the key is present, else from the query string
parameter `qp`; a missing value is an early `return None` when
`raise_exception` is false and a `MissingParameter` raise otherwise; with a
value in hand, `get_object_from_urlsafe` fetches the object (`none` models a
decode/fetch raise).  Returns the control flow together with the final value
of the `_object` local. -/
def get_object_try (h : Handler) (req : Request) (urlsafe : Option String)
    (lf qp : Option String) (raise_exception : Bool) : TryFlow × Option Obj :=
  let fetch : String → TryFlow × Option Obj := fun u =>
    match h.get_object_from_urlsafe u with
    | some o => (.ended, some o)
    | none => (.raised (.other "Exception" "get_object_from_urlsafe raised"), none)
  match urlsafe with
  | some u => fetch u
  | none =>
    let urlsafe_from_request : Option String :=
      match lf with
      | some f =>
        match req.route_args.lookup f with
        | some v => some v
        | none =>
          match qp with
          | some q => req.query.lookup q
          | none => none
      | none =>
        match qp with
        | some q => req.query.lookup q
        | none => none
    match urlsafe_from_request with
    | none =>
      if raise_exception = false then (.early none, none)
      else (.raised (.missingParameter
        ("Parameter " ++ optStr (lf <|> qp) ++ " is missing from request")), none)
    | some u => fetch u

/-- `APIModelBaseHandler.get_object` (handlers.py lines 168 to 209).
Parameter defaulting (`lookup_field or self.lookup_field`, line 170), the
all-unset `BadRequest` guard (lines 173 to 177), then the
`try`/`except`/`finally` block: the `except Exception` clause (lines 201 to
207) turns any in-flight exception into a `NotFound` raise when
`raise_exception` is true and swallows it otherwise; the `finally` clause
(lines 208 to 209) then executes `return _object`, and a `return` inside
`finally` discards the saved exception and any earlier return value (Python
language reference), so the block always returns the `_object` local. -/
def get_object (h : Handler) (req : Request)
    (urlsafe query_param lookup_field : Option String) (raise_exception : Bool) :
    Except DomainError (Option Obj) :=
  let lf := lookup_field <|> h.lookup_field
  let qp := query_param <|> h.query_param
  if lf = none ∧ urlsafe = none ∧ qp = none then
    (if raise_exception then .error (.badRequest "") else .ok none)
  else
    let tb := get_object_try h req urlsafe lf qp raise_exception
    let after_except : TryFlow :=
      match tb.1 with
      | .raised _ => if raise_exception then .raised (.notFound "") else .ended
      | f => f
    let _ := after_except
    .ok tb.2

/-! Concrete fixtures used by the per-claim witnesses and counterexamples. -/

/-- Framework fallback handler fixture. -/
def hexC1 : DomainError → Response := fun _ => ⟨500, "unhandled"⟩

/-- Request fixture. -/
def reqC1 : Request := ⟨"GET", "/", [], [], ""⟩

/-- Handler whose key decode/fetch always raises. -/
def hC2 : Handler := { lookup_field := some "urlsafe", get_object_from_urlsafe := fun _ => none }

/-- Request carrying no `urlsafe` route argument and no query string. -/
def reqC2 : Request := ⟨"GET", "/resource/abc/", [], [], ""⟩

/-- Middleware whose `process_response` returns a replacement response
(which the dispatcher discards) and performs no mutation. -/
def mwC3 : Middleware := ⟨0, fun r => .ok r, fun r => r, fun _ => ⟨999, "replaced"⟩⟩

/-- Dispatch body fixture producing a fixed response. -/
def ddC3 : Request → Except DomainError Response := fun _ => .ok ⟨200, "orig"⟩

/-- Framework fallback handler fixture. -/
def hexC3 : DomainError → Response := fun _ => ⟨500, "unhandled"⟩

/-- Request fixture. -/
def reqC3 : Request := ⟨"GET", "/", [], [], ""⟩

/-- Middleware appending a tag to the response body in place. -/
def mwC3a : Middleware := ⟨1, fun r => .ok r, fun r => ⟨r.status, r.body ++ "+a"⟩, fun r => r⟩

/-- Middleware appending a second tag to the response body in place. -/
def mwC3b : Middleware := ⟨2, fun r => .ok r, fun r => ⟨r.status, r.body ++ "+b"⟩, fun r => r⟩

/-- Dispatch body fixture producing a fixed response. -/
def ddC3w : Request → Except DomainError Response := fun _ => .ok ⟨200, "orig"⟩

/-- A registered url whose pattern matches nothing. -/
def uC4 : URLPattern := ⟨fun _ => false, ⟨[], false⟩⟩

/-- Handler with a single never-matching url. -/
def hC4 : Handler := { urls := [uC4] }

/-- Request fixture. -/
def reqC4 : Request := ⟨"GET", "/resource/", [], [], ""⟩

/-- Framework fallback handler fixture. -/
def hexC4 : DomainError → Response := fun _ => ⟨500, "unhandled"⟩

/-- Collection url registering only POST. -/
def uC5 : URLPattern := ⟨fun p => p == "/resource/", ⟨[("post", "create")], false⟩⟩

/-- Handler with the POST-only url. -/
def hC5 : Handler := { urls := [uC5] }

/-- A DELETE request against the POST-only url. -/
def reqC5 : Request := ⟨"DELETE", "/resource/", [], [], ""⟩

/-- Framework fallback handler fixture. -/
def hexC5 : DomainError → Response := fun _ => ⟨500, "unhandled"⟩

/-- Detail url mapping GET to retrieve. -/
def uC6 : URLPattern := ⟨fun _ => true, ⟨[("get", "retrieve")], true⟩⟩

/-- Handler whose key decode always raises. -/
def hC6 : Handler := { urls := [uC6], get_key_from_urlsafe := fun _ => none }

/-- Detail request whose `urlsafe` route argument will fail to decode. -/
def reqC6 : Request := ⟨"GET", "/resource/zzz/", [("urlsafe", "zzz")], [], ""⟩

/-- Framework fallback handler fixture. -/
def hexC6 : DomainError → Response := fun _ => ⟨500, "unhandled"⟩

/-- Default handler fixture. -/
def hC7 : Handler := {}

/-- A JSON parser that rejects every body. -/
def jlC7 : String → Option String := fun _ => none

/-- A create request whose body is not parseable JSON. -/
def reqC7 : Request := ⟨"POST", "/resource/", [], [], "not-json"⟩

/-- Framework fallback handler fixture. -/
def hexC7 : DomainError → Response := fun _ => ⟨500, "unhandled"⟩

/-- A configured pagination delegate that yields no page. -/
def pagC8 : Paginator := ⟨fun _ _ => none, fun _ => ⟨299, "paginated"⟩⟩

/-- Handler with a three-element queryset and the pageless delegate. -/
def hC8 : Handler :=
  { queryset := [1, 2, 3], serialize_many := fun l => toString l.length,
    pagination_class := some pagC8 }

/-- List request fixture. -/
def reqC8 : Request := ⟨"GET", "/resource/", [], [], ""⟩

/-- A pagination delegate taking the first two elements as the page. -/
def pagC8w : Paginator := ⟨fun qs _ => some (qs.take 2), fun s => ⟨200, "page:" ++ s⟩⟩

/-- Handler with a three-element queryset and the two-element-page delegate. -/
def hC8w : Handler :=
  { queryset := [1, 2, 3], serialize_many := fun l => toString l.length,
    pagination_class := some pagC8w }

/-- List request fixture. -/
def reqC8w : Request := ⟨"GET", "/resource/", [], [], ""⟩

/-- A no-op middleware with id 5. -/
def mwC9 : Middleware := ⟨5, fun r => .ok r, fun r => r, fun r => r⟩

/-- Dispatch body fixture raising a bare NotFound. -/
def ddC9 : Request → Except DomainError Response := fun _ => .error (.notFound "")

/-- Framework fallback handler fixture. -/
def hexC9 : DomainError → Response := fun _ => ⟨500, "unhandled"⟩

/-- Request fixture. -/
def reqC9 : Request := ⟨"GET", "/", [], [], ""⟩

/-- Url whose mapping names the `retrieve` action. -/
def uC10 : URLPattern := ⟨fun _ => true, ⟨[("get", "retrieve")], false⟩⟩

/-- Handler defining no actions at all, so `retrieve` is looked up as `None`. -/
def hC10 : Handler := { urls := [uC10] }

/-- Request fixture. -/
def reqC10 : Request := ⟨"GET", "/x/", [], [], ""⟩

/-- Framework fallback handler fixture. -/
def hexC10 : DomainError → Response := fun _ => ⟨500, "internal error"⟩

/-! Helper lemmas about the dispatch pipeline. -/

/-- If a before hook raises, `apply_dispatch` translates the error and stops. -/
theorem apply_dispatch_before_error (mids : List Middleware)
    (dd : Request → Except DomainError Response) (hex : DomainError → Response)
    (req : Request) (tr : List Event) (e : DomainError)
    (hb : run_before mids req = (tr, Except.error e)) :
    apply_dispatch mids dd hex req = (handleError hex e, tr) := by
  simp [apply_dispatch, hb]

/-- If the before hooks pass and the dispatch body raises, `apply_dispatch`
translates the error and the after hooks never run. -/
theorem apply_dispatch_dd_error (mids : List Middleware)
    (dd : Request → Except DomainError Response) (hex : DomainError → Response)
    (req : Request) (tr : List Event) (req2 : Request) (e : DomainError)
    (hb : run_before mids req = (tr, Except.ok req2)) (hd : dd req2 = .error e) :
    apply_dispatch mids dd hex req = (handleError hex e, tr ++ [Event.dispatched]) := by
  simp [apply_dispatch, hb, hd]

/-- If the before hooks pass and the dispatch body returns normally, the
after hooks run on the response. -/
theorem apply_dispatch_dd_ok (mids : List Middleware)
    (dd : Request → Except DomainError Response) (hex : DomainError → Response)
    (req : Request) (tr : List Event) (req2 : Request) (resp : Response)
    (hb : run_before mids req = (tr, Except.ok req2)) (hd : dd req2 = .ok resp) :
    apply_dispatch mids dd hex req =
      ((run_after mids resp).2, tr ++ [Event.dispatched] ++ (run_after mids resp).1) := by
  simp [apply_dispatch, hb, hd]

/-- A successful before-hook pass records exactly the before-hook events, in
registration order. -/
theorem run_before_ok_trace (mids : List Middleware) :
    ∀ (req req2 : Request) (tr : List Event),
      run_before mids req = (tr, Except.ok req2) →
      tr = mids.map (fun m => Event.beforeHook m.id) := by
  induction mids with
  | nil =>
    intro req req2 tr h
    simp [run_before] at h
    simp [h.1]
  | cons m rest ih =>
    intro req req2 tr h
    unfold run_before at h
    cases hpr : m.process_request req with
    | error e => rw [hpr] at h; simp at h
    | ok r2 =>
      rw [hpr] at h
      rw [Prod.mk.injEq] at h
      obtain ⟨h1, h2⟩ := h
      have hrec : run_before rest r2 = ((run_before rest r2).1, Except.ok req2) := by
        rw [← h2]
      subst h1
      simp [ih r2 req2 (run_before rest r2).1 hrec]
  
/-- The before-hook loop never records an after-hook event. -/
theorem afterHook_not_mem_run_before (mids : List Middleware) :
    ∀ (req : Request) (i : Nat), Event.afterHook i ∉ (run_before mids req).1 := by
  induction mids with
  | nil => intro req i; simp [run_before]
  | cons m rest ih =>
    intro req i
    unfold run_before
    cases hpr : m.process_request req with
    | error e => simp
    | ok r2 =>
      simp only [List.mem_cons]
      intro hmem
      rcases hmem with hmem | hmem
      · exact Event.noConfusion hmem
      · exact ih r2 i hmem

/-- The after-hook loop records the after-hook events in registration order,
and the final response is the left fold of the in-place mutations. -/
theorem run_after_eq (mids : List Middleware) :
    ∀ (resp : Response),
      run_after mids resp =
        (mids.map (fun m => Event.afterHook m.id),
         mids.foldl (fun r m => m.process_response_mutate r) resp) := by
  induction mids with
  | nil => intro resp; simp [run_after]
  | cons m rest ih => intro resp; simp [run_after, ih]

/-- On a matched detail route whose key step fails, `do_dispatch` returns
the local 400 response normally (it does not raise). -/
theorem do_dispatch_bad_key (h : Handler) (req : Request) (u : URLPattern)
    (hm : h.urls.find? (fun v => v.regex_match req.path_info) = some u)
    (hk : resolve_key h u req.route_args = Except.error ()) :
    do_dispatch h req = .ok ⟨400, "Given urlsafe is invalid"⟩ := by
  simp [do_dispatch, hm, hk]

/-- Claim C1: for every request whose dispatch raises a domain error,
`apply_dispatch` returns the fixed status/body mapping — NotFound 404 "Not
found", NotAuthorized 403 "Not authorized", Forbidden 401 "Forbidden",
MissingParameter 400 "Missing parameter", BadRequest 400 "Bad request",
MissingBody 400 "Request is missing a body", ValueError 400 "Value error",
DispatchError 404 with empty body — and a non-empty message on the raised
error replaces the default phrase as the body. -/
theorem apply_dispatch_error_mapping
    (mids : List Middleware) (dd : Request → Except DomainError Response)
    (hex : DomainError → Response) (req req2 : Request) (tr : List Event) (m : String)
    (hb : run_before mids req = (tr, Except.ok req2)) :
    (dd req2 = .error (.notFound m) →
      (apply_dispatch mids dd hex req).1 = ⟨404, if m = "" then "Not found" else m⟩) ∧
    (dd req2 = .error (.notAuthorized m) →
      (apply_dispatch mids dd hex req).1 = ⟨403, if m = "" then "Not authorized" else m⟩) ∧
    (dd req2 = .error (.forbidden m) →
      (apply_dispatch mids dd hex req).1 = ⟨401, if m = "" then "Forbidden" else m⟩) ∧
    (dd req2 = .error (.missingParameter m) →
      (apply_dispatch mids dd hex req).1 = ⟨400, if m = "" then "Missing parameter" else m⟩) ∧
    (dd req2 = .error (.badRequest m) →
      (apply_dispatch mids dd hex req).1 = ⟨400, if m = "" then "Bad request" else m⟩) ∧
    (dd req2 = .error (.missingBody m) →
      (apply_dispatch mids dd hex req).1 =
        ⟨400, if m = "" then "Request is missing a body" else m⟩) ∧
    (dd req2 = .error (.valueError m) →
      (apply_dispatch mids dd hex req).1 = ⟨400, if m = "" then "Value error" else m⟩) ∧
    (dd req2 = .error (.dispatchError m) →
      (apply_dispatch mids dd hex req).1 = ⟨404, ""⟩) := by
  refine ⟨?_, ?_, ?_, ?_, ?_, ?_, ?_, ?_⟩ <;>
    intro hd <;> simp [apply_dispatch, hb, hd, handleError, strOr]

/-- Witness for claim C1: a bare NotFound raised during dispatch yields
404 "Not found". -/
theorem apply_dispatch_error_mapping_witness :
    (apply_dispatch [] (fun _ => Except.error (DomainError.notFound "")) hexC1 reqC1).1 =
      ⟨404, "Not found"⟩ := by
  have h := (apply_dispatch_error_mapping []
      (fun _ => Except.error (DomainError.notFound "")) hexC1 reqC1 reqC1 [] "" rfl).1 rfl
  simpa using h

/-- Claim C2 (code-bug evidence): with `raise_exception = true`, `get_object`
returns `.ok none` instead of letting MissingParameter (missing resolvable
value, first conjunct) or NotFound (decode/fetch failure on an explicit key,
second conjunct) propagate: the `return _object` in the `finally` clause
discards the in-flight exception. -/
theorem get_object_suppresses_errors :
    get_object hC2 reqC2 none none none true = .ok none ∧
    get_object hC2 reqC2 (some "badkey") none none true = .ok none := ⟨rfl, rfl⟩

/-- Counterexample for claim C3: the value returned by a `process_response`
hook does not become the dispatched response — the dispatcher discards it
(handlers.py line 80 ignores the call's value). -/
theorem process_response_value_discarded :
    (apply_dispatch [mwC3] ddC3 hexC3 reqC3).1 = ⟨200, "orig"⟩ ∧
    mwC3.process_response_value ⟨200, "orig"⟩ = ⟨999, "replaced"⟩ ∧
    Response.mk 200 "orig" ≠ Response.mk 999 "replaced" := ⟨rfl, rfl, by decide⟩

/-- Claim C3 as amended: before hooks run in registration order before the
action, after hooks run in the same forward order after it, and the final
response is the fold of the hooks' in-place mutations over the action's
response — the values returned by `process_response` hooks are discarded, so
a hook cannot replace the response by returning a new one. -/
theorem middleware_forward_order_mutation
    (mids : List Middleware) (dd : Request → Except DomainError Response)
    (hex : DomainError → Response) (req req2 : Request) (tr : List Event) (resp : Response)
    (hb : run_before mids req = (tr, Except.ok req2)) (hd : dd req2 = Except.ok resp) :
    (apply_dispatch mids dd hex req).2 =
      mids.map (fun m => Event.beforeHook m.id) ++ [Event.dispatched] ++
        mids.map (fun m => Event.afterHook m.id) ∧
    (apply_dispatch mids dd hex req).1 =
      mids.foldl (fun r m => m.process_response_mutate r) resp := by
  have htr := run_before_ok_trace mids req req2 tr hb
  have had := apply_dispatch_dd_ok mids dd hex req tr req2 resp hb hd
  subst htr
  rw [had]
  simp [run_after_eq]

/-- Witness for claim C3 (amended): two middlewares run in order 1, 2 both
before and after, and their in-place body mutations accumulate in that
order. -/
theorem middleware_forward_order_mutation_witness :
    (apply_dispatch [mwC3a, mwC3b] ddC3w hexC3 reqC3).2 =
      [Event.beforeHook 1, Event.beforeHook 2, Event.dispatched,
       Event.afterHook 1, Event.afterHook 2] ∧
    (apply_dispatch [mwC3a, mwC3b] ddC3w hexC3 reqC3).1 = ⟨200, "orig+a+b"⟩ := by
  have h := middleware_forward_order_mutation [mwC3a, mwC3b] ddC3w hexC3 reqC3 reqC3
      [Event.beforeHook 1, Event.beforeHook 2] ⟨200, "orig"⟩ rfl rfl
  exact ⟨h.1, h.2⟩

/-- Claim C4: a request whose path matches no registered route pattern makes
`do_dispatch` raise NotFound with message "URL not found on this server",
and the dispatched response is 404 with that message as body. -/
theorem no_route_match_404
    (mids : List Middleware) (hex : DomainError → Response) (req req2 : Request)
    (tr : List Event) (h : Handler)
    (hb : run_before mids req = (tr, Except.ok req2))
    (hnone : ∀ u ∈ h.urls, u.regex_match req2.path_info = false) :
    do_dispatch h req2 = .error (.notFound "URL not found on this server") ∧
    (apply_dispatch mids (do_dispatch h) hex req).1 =
      ⟨404, "URL not found on this server"⟩ := by
  have hfind : h.urls.find? (fun u => u.regex_match req2.path_info) = none := by
    rw [List.find?_eq_none]
    intro u hu
    simp [hnone u hu]
  have hdd : do_dispatch h req2 = .error (.notFound "URL not found on this server") := by
    simp [do_dispatch, hfind]
  refine ⟨hdd, ?_⟩
  have had := apply_dispatch_dd_error mids (do_dispatch h) hex req tr req2 _ hb hdd
  rw [had]
  simp [handleError, strOr]

/-- Witness for claim C4: a handler whose single registered pattern matches
nothing answers 404 "URL not found on this server". -/
theorem no_route_match_404_witness :
    do_dispatch hC4 reqC4 = .error (.notFound "URL not found on this server") ∧
    (apply_dispatch [] (do_dispatch hC4) hexC4 reqC4).1 =
      ⟨404, "URL not found on this server"⟩ :=
  no_route_match_404 [] hexC4 reqC4 reqC4 [] hC4 rfl (by decide)

/-- Claim C5: when the matched route's method mapping has no key for the
lowercased request method (and the detail key step did not fail),
`do_dispatch` raises DispatchError carrying the rejected method name and the
dispatched response is 404 with an empty body; only the matched route's
mapping is consulted (the other registered routes are unconstrained). -/
theorem invalid_method_dispatch_error
    (mids : List Middleware) (hex : DomainError → Response) (req req2 : Request)
    (tr : List Event) (h : Handler) (u : URLPattern) (kopt : Option Key)
    (hb : run_before mids req = (tr, Except.ok req2))
    (hm : h.urls.find? (fun v => v.regex_match req2.path_info) = some u)
    (hk : resolve_key h u req2.route_args = Except.ok kopt)
    (hmethod : u.route.mapping.lookup (lower req2.method) = none) :
    do_dispatch h req2 = .error (.dispatchError ("Invalid method " ++ req2.method)) ∧
    (apply_dispatch mids (do_dispatch h) hex req).1 = ⟨404, ""⟩ := by
  have hdd : do_dispatch h req2 =
      .error (.dispatchError ("Invalid method " ++ req2.method)) := by
    simp [do_dispatch, hm, hk, hmethod]
  refine ⟨hdd, ?_⟩
  have had := apply_dispatch_dd_error mids (do_dispatch h) hex req tr req2 _ hb hdd
  rw [had]
  simp [handleError]

/-- Witness for claim C5: DELETE against a route registering only POST
yields DispatchError "Invalid method DELETE" and a 404 with empty body. -/
theorem invalid_method_dispatch_error_witness :
    do_dispatch hC5 reqC5 = .error (.dispatchError "Invalid method DELETE") ∧
    (apply_dispatch [] (do_dispatch hC5) hexC5 reqC5).1 = ⟨404, ""⟩ :=
  invalid_method_dispatch_error [] hexC5 reqC5 reqC5 [] hC5 uC5 none rfl rfl rfl rfl

/-- Claim C6: on a matched detail route whose `urlsafe` path parameter fails
to decode, `do_dispatch` returns 400 "Given urlsafe is invalid" as a normal
return (not a raise, so it bypasses the error translator), for every method
mapping — in particular before the HTTP-method validity check — and that
response is what the dispatcher hands on. -/
theorem invalid_urlsafe_local_400
    (mids : List Middleware) (hex : DomainError → Response) (req req2 : Request)
    (tr : List Event) (h : Handler) (u : URLPattern)
    (hb : run_before mids req = (tr, Except.ok req2))
    (hm : h.urls.find? (fun v => v.regex_match req2.path_info) = some u)
    (hdetail : u.route.detail = true)
    (hk : resolve_key h u req2.route_args = Except.error ()) :
    do_dispatch h req2 = .ok ⟨400, "Given urlsafe is invalid"⟩ ∧
    (apply_dispatch mids (do_dispatch h) hex req).1 =
      mids.foldl (fun r m => m.process_response_mutate r)
        ⟨400, "Given urlsafe is invalid"⟩ := by
  have hdd := do_dispatch_bad_key h req2 u hm hk
  refine ⟨hdd, ?_⟩
  have had := apply_dispatch_dd_ok mids (do_dispatch h) hex req tr req2 _ hb hdd
  rw [had]
  simp [run_after_eq]

/-- Witness for claim C6: a GET on a detail route with an undecodable
`urlsafe` yields exactly 400 "Given urlsafe is invalid". -/
theorem invalid_urlsafe_local_400_witness :
    do_dispatch hC6 reqC6 = .ok ⟨400, "Given urlsafe is invalid"⟩ ∧
    (apply_dispatch [] (do_dispatch hC6) hexC6 reqC6).1 =
      ⟨400, "Given urlsafe is invalid"⟩ :=
  invalid_urlsafe_local_400 [] hexC6 reqC6 reqC6 [] hC6 uC6 rfl rfl rfl rfl

/-- Claim C7: a create request whose body is empty or unparseable makes
`create` raise MissingBody "Request is missing a body" without performing
any serializer or storage call (empty event list), and the dispatched
response is 400 with that body. -/
theorem create_missing_body_400
    (h : Handler) (json_loads : String → Option String) (req : Request)
    (hex : DomainError → Response)
    (hbody : req.body = "" ∨ json_loads req.body = none) :
    create h json_loads req = (.error (.missingBody "Request is missing a body"), []) ∧
    (apply_dispatch [] (fun r => (create h json_loads r).1) hex req).1 =
      ⟨400, "Request is missing a body"⟩ := by
  have hgb : get_body json_loads req = .error (.missingBody "Request is missing a body") := by
    rcases hbody with h1 | h1
    · simp [get_body, h1]
    · by_cases h2 : req.body = ""
      · simp [get_body, h2]
      · simp [get_body, h2, h1]
  have hc : create h json_loads req =
      (.error (.missingBody "Request is missing a body"), []) := by
    simp [create, hgb]
  refine ⟨hc, ?_⟩
  have had := apply_dispatch_dd_error [] (fun r => (create h json_loads r).1) hex req [] req
      (.missingBody "Request is missing a body") rfl
      (by show (create h json_loads req).1 = _; rw [hc])
  rw [had]
  simp [handleError, strOr]

/-- Witness for claim C7: a POST whose body `not-json` fails to parse yields
400 "Request is missing a body" and performs no serializer or storage
call. -/
theorem create_missing_body_400_witness :
    create hC7 jlC7 reqC7 = (.error (.missingBody "Request is missing a body"), []) ∧
    (apply_dispatch [] (fun r => (create hC7 jlC7 r).1) hexC7 reqC7).1 =
      ⟨400, "Request is missing a body"⟩ :=
  create_missing_body_400 hC7 jlC7 reqC7 hexC7 (Or.inr rfl)

/-- Counterexample for claim C8: with a pagination strategy configured
(`pagination_class` is `some pagC8`) whose delegate produces no page, `list`
returns the serialization of the entire queryset, not a response built by
the delegate's paginated-response builder (which always returns status 299
here). -/
theorem list_configured_strategy_counterexample :
    hC8.pagination_class = some pagC8 ∧
    pagC8.paginate_queryset hC8.queryset reqC8 = none ∧
    list hC8 reqC8 = .ok ⟨200, "3"⟩ ∧
    pagC8.get_paginated_response "3" = ⟨299, "paginated"⟩ ∧
    Response.mk 200 "3" ≠ Response.mk 299 "paginated" :=
  ⟨rfl, rfl, rfl, rfl, by decide⟩

/-- Claim C8 as amended: with no pagination strategy configured — and more
generally whenever `paginate_queryset` yields no page, which also happens
when a configured delegate returns none — `list` serializes the entire
queryset; when the configured delegate produces a page, the response is
exactly that page, serialized and wrapped by the delegate's
paginated-response builder. -/
theorem list_pagination_spec (h : Handler) (req : Request) :
    (h.pagination_class = none →
       list h req = .ok ⟨200, h.serialize_many h.queryset⟩) ∧
    (paginate_queryset h h.queryset req = none →
       list h req = .ok ⟨200, h.serialize_many h.queryset⟩) ∧
    (∀ p pg, h.pagination_class = some p →
       p.paginate_queryset h.queryset req = some pg →
       list h req = .ok (p.get_paginated_response (h.serialize_many pg))) := by
  refine ⟨?_, ?_, ?_⟩
  · intro h0
    simp [list, paginate_queryset, paginator, h0]
  · intro h0
    simp [list, h0]
  · intro p pg hp hpg
    simp [list, paginate_queryset, paginator, hp, hpg, get_paginated_response]

/-- Witness for claim C8 (amended): a delegate taking the first two elements
of the three-element queryset produces exactly that wrapped page. -/
theorem list_pagination_spec_witness :
    list hC8w reqC8w = .ok (pagC8w.get_paginated_response (hC8w.serialize_many [1, 2])) :=
  (list_pagination_spec hC8w reqC8w).2.2 pagC8w [1, 2] rfl rfl

/-- Claim C9: when a before hook or the dispatch body (route resolution or
the action) raises, the translated error response is returned at once and no
after hook runs; after hooks run exactly on responses `do_dispatch` returns
normally — including the local 400 "Given urlsafe is invalid" response,
which is returned, not raised. -/
theorem error_responses_skip_after_hooks
    (mids : List Middleware) (dd : Request → Except DomainError Response)
    (hex : DomainError → Response) (req : Request) :
    (∀ tr e, run_before mids req = (tr, Except.error e) →
       apply_dispatch mids dd hex req = (handleError hex e, tr) ∧
       ∀ i, Event.afterHook i ∉ tr) ∧
    (∀ tr req2 e, run_before mids req = (tr, Except.ok req2) →
       dd req2 = Except.error e →
       apply_dispatch mids dd hex req = (handleError hex e, tr ++ [Event.dispatched]) ∧
       ∀ i, Event.afterHook i ∉ tr ++ [Event.dispatched]) ∧
    (∀ tr req2 resp, run_before mids req = (tr, Except.ok req2) →
       dd req2 = Except.ok resp →
       (apply_dispatch mids dd hex req).2 =
         tr ++ [Event.dispatched] ++ mids.map (fun m => Event.afterHook m.id)) ∧
    (∀ tr req2 (h : Handler) (u : URLPattern),
       run_before mids req = (tr, Except.ok req2) →
       h.urls.find? (fun v => v.regex_match req2.path_info) = some u →
       u.route.detail = true →
       resolve_key h u req2.route_args = Except.error () →
       do_dispatch h req2 = .ok ⟨400, "Given urlsafe is invalid"⟩ ∧
       (apply_dispatch mids (do_dispatch h) hex req).2 =
         tr ++ [Event.dispatched] ++ mids.map (fun m => Event.afterHook m.id)) := by
  refine ⟨?_, ?_, ?_, ?_⟩
  · intro tr e hb
    refine ⟨apply_dispatch_before_error mids dd hex req tr e hb, ?_⟩
    intro i
    have hmem := afterHook_not_mem_run_before mids req i
    rw [hb] at hmem
    simpa using hmem
  · intro tr req2 e hb hd
    refine ⟨apply_dispatch_dd_error mids dd hex req tr req2 e hb hd, ?_⟩
    intro i
    have hmem := afterHook_not_mem_run_before mids req i
    rw [hb] at hmem
    simp only [List.mem_append, List.mem_singleton]
    intro hcase
    rcases hcase with hcase | hcase
    · have hmem2 : Event.afterHook i ∉ tr := by simpa using hmem
      exact hmem2 hcase
    · exact Event.noConfusion hcase
  · intro tr req2 resp hb hd
    have had := apply_dispatch_dd_ok mids dd hex req tr req2 resp hb hd
    rw [had]
    simp [run_after_eq]
  · intro tr req2 h u hb hm hdt hk
    have hdd := do_dispatch_bad_key h req2 u hm hk
    refine ⟨hdd, ?_⟩
    have had := apply_dispatch_dd_ok mids (do_dispatch h) hex req tr req2 _ hb hdd
    rw [had]
    simp [run_after_eq]

/-- Witness for claim C9: a NotFound raised by the dispatch body after one
before hook yields the translated 404 and a trace with no after-hook
event. -/
theorem error_responses_skip_after_hooks_witness :
    apply_dispatch [mwC9] ddC9 hexC9 reqC9 =
      (⟨404, "Not found"⟩, [Event.beforeHook 5, Event.dispatched]) := by
  have h := ((error_responses_skip_after_hooks [mwC9] ddC9 hexC9 reqC9).2.1
      [Event.beforeHook 5] reqC9 (DomainError.notFound "") rfl rfl).1
  simpa [handleError, strOr] using h

/-- Claim C10: when the matched route's mapping names an action the handler
does not define, the `getattr` lookup with a `None` default makes
`do_dispatch` call `None`, raising the runtime TypeError, which reaches the
generic unclassified-exception fallback `handle_exception` — not the
DispatchError 404 branch nor any other mapped domain-error branch. -/
theorem missing_action_reaches_fallback
    (mids : List Middleware) (hex : DomainError → Response) (req req2 : Request)
    (tr : List Event) (h : Handler) (u : URLPattern) (kopt : Option Key) (name : String)
    (hb : run_before mids req = (tr, Except.ok req2))
    (hm : h.urls.find? (fun v => v.regex_match req2.path_info) = some u)
    (hk : resolve_key h u req2.route_args = Except.ok kopt)
    (hmap : u.route.mapping.lookup (lower req2.method) = some name)
    (hact : h.actions.lookup name = none) :
    do_dispatch h req2 = .error (.other "TypeError" "NoneType object is not callable") ∧
    (apply_dispatch mids (do_dispatch h) hex req).1 =
      hex (.other "TypeError" "NoneType object is not callable") := by
  have hdd : do_dispatch h req2 =
      .error (.other "TypeError" "NoneType object is not callable") := by
    simp [do_dispatch, hm, hk, hmap, hact]
  refine ⟨hdd, ?_⟩
  have had := apply_dispatch_dd_error mids (do_dispatch h) hex req tr req2 _ hb hdd
  rw [had]
  simp [handleError]

/-- Witness for claim C10: a mapping naming `retrieve` on a handler defining
no actions sends the request to the generic fallback (status 500 here). -/
theorem missing_action_reaches_fallback_witness :
    do_dispatch hC10 reqC10 =
      .error (.other "TypeError" "NoneType object is not callable") ∧
    (apply_dispatch [] (do_dispatch hC10) hexC10 reqC10).1 = ⟨500, "internal error"⟩ :=
  missing_action_reaches_fallback [] hexC10 reqC10 reqC10 [] hC10 uC10 none "retrieve"
    rfl rfl rfl rfl rfl

end Restae
